import Mathlib

/-!
# JWT signer / parser middleware and the addsvc client pipeline

A shallow embedding of `auth/jwt.go` (`NewJWTSigner`, `NewJWTParser`) and of the
pipeline assembly in `examples/addsvc/client/grpc/client.go` (`New`).

Go functions with side effects are functions that pass an explicit state `σ`.
A Go call that may panic yields an `Outcome`.  The signing library
(github.com/dgrijalva/jwt-go) is outside the repository: its primitives are the
fields of `Lib`, and `Parse` below follows the order in which the library's
`Parse` works (decode, ask the Keyfunc for the key, verify).
-/

namespace Kit

/-! ## Go values, errors, contexts -/

/-- Value of one claim (a JSON scalar). -/
inductive JSON where
  | null
  | bool (b : Bool)
  | num (n : Int)
  | str (s : String)
  deriving DecidableEq, Repr

/-- Go type `jwt.MapClaims` (`map[string]interface{}`), as an association list. -/
abbrev MapClaims := List (String × JSON)

/-- Go `interface{}` values that occur in the program: the nil interface, a
`string`, a `[]byte`, a `jwt.MapClaims`, and any other value (named by a tag). -/
inductive Value where
  | nil
  | str (s : String)
  | bytes (b : String)
  | claims (c : MapClaims)
  | obj (tag : String)
  deriving DecidableEq, Repr

/-- Go `error` values: `errors.New` / `fmt.Errorf` texts, and the library's
`*jwt.ValidationError` wrapping an inner error with its bit flags. -/
inductive Error where
  | New (text : String)
  | Validation (Inner : Error) (Errors : Nat)
  deriving DecidableEq, Repr

/-- Method `Error()` of a Go error: a `ValidationError` prints its inner error. -/
def Error.Msg : Error → String
  | .New text => text
  | .Validation Inner _ => Inner.Msg

/-- Flag `jwt.ValidationErrorMalformed`. -/
def ValidationErrorMalformed : Nat := 1
/-- Flag `jwt.ValidationErrorUnverifiable`. -/
def ValidationErrorUnverifiable : Nat := 2
/-- Flag `jwt.ValidationErrorSignatureInvalid`. -/
def ValidationErrorSignatureInvalid : Nat := 4

deriving instance DecidableEq for Except

/-- What `ctx.Err()` reports once a context is done. -/
inductive CtxErr where
  | Canceled
  | DeadlineExceeded
  deriving DecidableEq, Repr

/-- Go `context.Context`: the chain of `WithValue` bindings (newest first) and
the cancellation state (`Err() == nil` while the context is live). -/
structure Context where
  values : List (String × Value)
  err : Option CtxErr
  deriving DecidableEq, Repr

/-- The empty live context, `context.Background()`. -/
def Context.Background : Context := ⟨[], none⟩

/-- Lookup in the binding chain, newest binding first. -/
def lookupValue (key : String) : List (String × Value) → Value
  | [] => Value.nil
  | (k, v) :: rest => if k = key then v else lookupValue key rest

/-- Go `ctx.Value(key)`: the newest binding of `key`, the nil interface if none. -/
def Context.Value (ctx : Context) (key : String) : Value :=
  lookupValue key ctx.values

/-- Go `context.WithValue(ctx, key, val)`: a child context with one more binding. -/
def Context.WithValue (ctx : Context) (key : String) (val : Kit.Value) : Context :=
  { ctx with values := (key, val) :: ctx.values }

/-- Result of calling a Go function `(response interface{}, err error)`: it
returns its two results, or it panics. -/
inductive Outcome where
  | ret (response : Value) (err : Option Error)
  | panic (msg : String)
  deriving DecidableEq, Repr

/-- Go `endpoint.Endpoint`. -/
abbrev Endpoint (σ : Type) := Context → Value → σ → Outcome × σ

/-- Go `endpoint.Middleware`. -/
abbrev Middleware (σ : Type) := Endpoint σ → Endpoint σ

/-! ## The signing library -/

/-- Go `jwt.SigningMethod`: the library's concrete method types, each with its
`Alg()` name, and any user-registered implementation. -/
inductive SigningMethod where
  | HMAC (Name : String)
  | RSA (Name : String)
  | RSAPSS (Name : String)
  | ECDSA (Name : String)
  | None
  | Custom (Name : String)
  deriving DecidableEq, Repr

/-- Method `Alg()`. -/
def SigningMethod.Alg : SigningMethod → String
  | .HMAC n => n
  | .RSA n => n
  | .RSAPSS n => n
  | .ECDSA n => n
  | .None => "none"
  | .Custom n => n

/-- Go type test `m.(*jwt.SigningMethodHMAC)`. -/
def SigningMethod.isHMAC : SigningMethod → Bool
  | .HMAC _ => true
  | _ => false

/-- Two methods of the same concrete Go type (the same family). -/
def SigningMethod.sameFamily : SigningMethod → SigningMethod → Bool
  | .HMAC _, .HMAC _ => true
  | .RSA _, .RSA _ => true
  | .RSAPSS _, .RSAPSS _ => true
  | .ECDSA _, .ECDSA _ => true
  | .None, .None => true
  | .Custom a, .Custom b => a == b
  | _, _ => false

/-- Library constant `jwt.SigningMethodHS256`. -/
def SigningMethodHS256 : SigningMethod := .HMAC "HS256"
/-- Library constant `jwt.SigningMethodRS256`. -/
def SigningMethodRS256 : SigningMethod := .RSA "RS256"
/-- Library constant `jwt.SigningMethodES256`. -/
def SigningMethodES256 : SigningMethod := .ECDSA "ES256"

/-- Go interface `jwt.Claims`: a `jwt.MapClaims`, or another implementation. -/
inductive Claims where
  | MapClaims (m : MapClaims)
  | Other (tag : String)
  deriving DecidableEq, Repr

/-- Go struct `jwt.Token`. -/
structure Token where
  Raw : String
  Method : SigningMethod
  Header : List (String × Value)
  Claims : Claims
  Signature : String
  Valid : Bool
  deriving DecidableEq, Repr

/-- Go `fmt` verb `%v` on the values that occur here. -/
def fmtV : Value → String
  | .nil => "<nil>"
  | .str s => s
  | .bytes b => b
  | .claims _ => "map[]"
  | .obj tag => tag

/-- Name of the dynamic Go type of a value, as a failed type assertion prints it. -/
def goType : Value → String
  | .nil => "nil"
  | .str _ => "string"
  | .bytes _ => "[]uint8"
  | .claims _ => "jwt.MapClaims"
  | .obj tag => tag

/-- Go `jwt.Keyfunc`, `func(*Token) (interface{}, error)`; it may perform I/O. -/
abbrev Keyfunc (σ : Type) := Token → σ → (Value × Option Error) × σ

/-- What `Parse` has read from a token string before it asks for the key. -/
structure Decoded where
  Method : SigningMethod
  Header : List (String × Value)
  Claims : MapClaims
  Signature : String
  deriving DecidableEq, Repr

/-- Primitives of the signing library.
* `SignedString t key` is `t.SignedString(key)`;
* `decode s` is the first part of `jwt.Parse`: split `s`, decode header and
  claims, look the declared method up;
* `verify t key` is the last part of `jwt.Parse`: validate the time-bound claims
  and the signature with the resolved key; `ok b` is a nil error with `b` the
  value left in `Valid` (the library leaves `true`; `false` is admitted so that
  the caller's own test of `token.Valid` is not assumed away). -/
structure Lib where
  SignedString : Token → Value → Except Error String
  decode : String → Except Error Decoded
  verify : Token → Value → Except Error Bool

/-- Go `jwt.New(method)`: a token with the standard header and empty claims. -/
def jwt.New (method : SigningMethod) : Token :=
  { Raw := ""
    Method := method
    Header := [("typ", Value.str "JWT"), ("alg", Value.str method.Alg)]
    Claims := Claims.MapClaims []
    Signature := ""
    Valid := false }

/-- The `*Token` that `jwt.Parse` builds from the decoded header and claims and
hands to the Keyfunc: `Signature` is not yet assigned at that point. -/
def Decoded.toToken (d : Decoded) (tokenString : String) : Token :=
  { Raw := tokenString
    Method := d.Method
    Header := d.Header
    Claims := Claims.MapClaims d.Claims
    Signature := ""
    Valid := false }

/-- The same token once `jwt.Parse` has assigned `token.Signature` from the
third segment, after the Keyfunc returned: this is what is verified. -/
def Decoded.withSignature (d : Decoded) (tokenString : String) : Token :=
  { d.toToken tokenString with Signature := d.Signature }

/-- Go `jwt.Parse(tokenString, keyFunc)`: decode the string, hand the parsed
token (header and claims) to `keyFunc`, wrap a `keyFunc` error as unverifiable,
then assign the signature and verify with the key obtained.  The result is
`.error err` for a non-nil error, `.ok token` otherwise. -/
def jwt.Parse {σ : Type} (lib : Lib) (tokenString : String) (keyFunc : Keyfunc σ) (s : σ) :
    Except Error Token × σ :=
  match lib.decode tokenString with
  | .error e => (.error e, s)
  | .ok d =>
    let token := d.toToken tokenString
    match keyFunc token s with
    | ((_, some e), s1) => (.error (Error.Validation e ValidationErrorUnverifiable), s1)
    | ((key, none), s1) =>
      let token := d.withSignature tokenString
      match lib.verify token key with
      | .error e => (.error e, s1)
      | .ok valid => (.ok { token with Valid := valid }, s1)

/-! ## auth/jwt.go -/

/-- Go `NewJWTSigner(key, method)` of auth/jwt.go. -/
def NewJWTSigner {σ : Type} (lib : Lib) (key : String) (method : SigningMethod) :
    Middleware σ :=
  fun next ctx request s =>
    let token := jwt.New method
    match lib.SignedString token (Value.str key) with
    | .error err => (Outcome.ret Value.nil (some err), s)
    | .ok tokenString =>
      let ctx := ctx.WithValue "jwtToken" (Value.str tokenString)
      next ctx request s

/-- The function literal that `NewJWTParser` hands to `jwt.Parse`. -/
def parserKeyfunc {σ : Type} (keyFunc : Keyfunc σ) : Keyfunc σ :=
  fun token s =>
    if token.Method.isHMAC then keyFunc token s
    else
      ((Value.nil,
        some (Error.New ("Unexpected signing method: " ++ fmtV (lookupValue "alg" token.Header)))),
       s)

/-- Go `NewJWTParser(keyFunc, method)` of auth/jwt.go.  The parameter `method`
is not used by the body. -/
def NewJWTParser {σ : Type} (lib : Lib) (keyFunc : Keyfunc σ) (_method : SigningMethod) :
    Middleware σ :=
  fun next ctx request s =>
    match ctx.Value "jwtToken" with
    | Value.str tokenString =>
      match jwt.Parse lib tokenString (parserKeyfunc keyFunc) s with
      | (.error err, s1) => (Outcome.ret Value.nil (some err), s1)
      | (.ok token, s1) =>
        if !token.Valid then
          (Outcome.ret Value.nil (some (Error.New "Could not parse JWT Token")), s1)
        else
          let ctx :=
            match token.Claims with
            | Claims.MapClaims claims => ctx.WithValue "jwtClaims" (Value.claims claims)
            | _ => ctx
          next ctx request s1
    | v =>
      (Outcome.panic ("interface conversion: interface \x7b\x7d is " ++ goType v ++
        ", not string"), s)

/-! ## An executable stand-in for the signing library -/

/-- Split a character list at every occurrence of `sep`. -/
def splitOnChar (sep : Char) : List Char → List (List Char)
  | [] => [[]]
  | c :: cs =>
    if c = sep then [] :: splitOnChar sep cs
    else
      match splitOnChar sep cs with
      | [] => [[c]]
      | p :: ps => (c :: p) :: ps

/-- The methods registered with the stand-in library, by `alg` name: the
built-in ones and `XSTR`, a method registered by the application. -/
def refMethod (alg : String) : Option SigningMethod :=
  if alg = "HS256" ∨ alg = "HS384" ∨ alg = "HS512" then some (.HMAC alg)
  else if alg = "RS256" ∨ alg = "RS384" ∨ alg = "RS512" then some (.RSA alg)
  else if alg = "ES256" ∨ alg = "ES384" ∨ alg = "ES512" then some (.ECDSA alg)
  else if alg = "PS256" ∨ alg = "PS384" ∨ alg = "PS512" then some (.RSAPSS alg)
  else if alg = "none" then some .None
  else if alg = "XSTR" then some (.Custom "XSTR")
  else none

/-- Claims segment of the stand-in encoding: `name=text` items joined by commas. -/
def refEncodeClaims : MapClaims → Except Error String
  | [] => .ok ""
  | (k, JSON.str v) :: rest =>
    match rest, refEncodeClaims rest with
    | _, .error e => .error e
    | [], .ok _ => .ok (k ++ "=" ++ v)
    | _ :: _, .ok r => .ok (k ++ "=" ++ v ++ "," ++ r)
  | _ :: _ => .error (Error.New "json: unsupported value")

/-- Inverse of `refEncodeClaims` on one item list. -/
def refDecodeItems : List (List Char) → Option MapClaims
  | [] => some []
  | item :: rest =>
    match splitOnChar '=' item, refDecodeItems rest with
    | [k, v], some m => some ((String.mk k, JSON.str (String.mk v)) :: m)
    | _, _ => none

/-- Decode the claims segment of the stand-in encoding. -/
def refDecodeClaims (seg : List Char) : Option MapClaims :=
  if seg = [] then some [] else refDecodeItems (splitOnChar ',' seg)

/-- Signature of the stand-in library: a tag that names the method family and
the key.  As in jwt-go, an HMAC method takes a `[]byte` key, the asymmetric
methods take a key object and `none` takes its marker constant; none of the
built-in methods takes a Go `string`.  The application-registered method `XSTR`
signs with a Go `string` key.  `acceptStringKeys = true` is a hypothetical
variant, not jwt-go, in which an HMAC method also takes a Go `string`. -/
def refSign (acceptStringKeys : Bool) (m : SigningMethod) (key : Value) : Except Error String :=
  match m, key with
  | .HMAC _, .bytes b => .ok ("hmac-" ++ b)
  | .HMAC _, .str b => if acceptStringKeys then .ok ("hmac-" ++ b) else .error (Error.New "key is invalid")
  | .RSA _, .obj tag => .ok ("rsa-" ++ tag)
  | .RSAPSS _, .obj tag => .ok ("pss-" ++ tag)
  | .ECDSA _, .obj tag => .ok ("ecdsa-" ++ tag)
  | .None, .obj "none signing method allowed" => .ok ""
  | .Custom "XSTR", .str b => .ok ("xstr-" ++ b)
  | _, _ => .error (Error.New "key is invalid")

/-- The stand-in library: tokens are `alg.claims.signature` in clear text.
`refLib false` follows jwt-go in the key types its methods take; `refLib true`
is the hypothetical variant of `refSign`. -/
def refLib (acceptStringKeys : Bool) : Lib where
  SignedString := fun t key =>
    match t.Claims with
    | Claims.MapClaims m =>
      match refEncodeClaims m with
      | .error e => .error e
      | .ok c =>
        match refSign acceptStringKeys t.Method key with
        | .error e => .error e
        | .ok sig => .ok (t.Method.Alg ++ "." ++ c ++ "." ++ sig)
    | _ => .error (Error.New "json: unsupported value")
  decode := fun s =>
    match splitOnChar '.' s.data with
    | [a, c, g] =>
      match refDecodeClaims c with
      | none => .error (Error.Validation (Error.New "invalid character") ValidationErrorMalformed)
      | some claims =>
        match refMethod (String.mk a) with
        | none =>
          .error (Error.Validation (Error.New "signing method (alg) is unavailable.")
            ValidationErrorUnverifiable)
        | some m =>
          .ok { Method := m
                Header := [("alg", Value.str (String.mk a)), ("typ", Value.str "JWT")]
                Claims := claims
                Signature := String.mk g }
    | _ =>
      .error (Error.Validation (Error.New "token contains an invalid number of segments")
        ValidationErrorMalformed)
  verify := fun t key =>
    match refSign acceptStringKeys t.Method key with
    | .error e => .error (Error.Validation e ValidationErrorSignatureInvalid)
    | .ok sig =>
      if sig = t.Signature then .ok true
      else .error (Error.Validation (Error.New "signature is invalid")
        ValidationErrorSignatureInvalid)

/-! ## examples/addsvc/client/grpc/client.go -/

/-- The collaborators that `New` of client.go obtains from other packages, as
constructors of endpoints and middlewares:
* `NewSigner key method claims` is `jwt.NewSigner(key, method, claims)`;
* `NewTokenBucketLimiter` is `ratelimit.NewTokenBucketLimiter(bucket)`;
* `NewClient service method` is `grpctransport.NewClient(conn, service, method, ...).Endpoint()`;
* `TraceClient name` is `opentracing.TraceClient(tracer, name)`;
* `Gobreaker name` is `circuitbreaker.Gobreaker` on a breaker with that name. -/
structure Deps (σ : Type) where
  NewSigner : String → SigningMethod → MapClaims → Middleware σ
  NewTokenBucketLimiter : Middleware σ
  NewClient : String → String → Endpoint σ
  TraceClient : String → Middleware σ
  Gobreaker : String → Middleware σ

/-- Go struct `addsvc.Endpoints`. -/
structure Endpoints (σ : Type) where
  SumEndpoint : Endpoint σ
  ConcatEndpoint : Endpoint σ

/-- Go `New(conn, tracer, logger)` of client.go. -/
def grpc.New {σ : Type} (deps : Deps σ) : Endpoints σ :=
  let jwtSigner := deps.NewSigner "SampleSigningKey" SigningMethodHS256 []
  let limiter := deps.NewTokenBucketLimiter
  let sumEndpoint := deps.NewClient "Add" "Sum"
  let sumEndpoint := deps.TraceClient "Sum" sumEndpoint
  let sumEndpoint := limiter sumEndpoint
  let sumEndpoint := deps.Gobreaker "Sum" sumEndpoint
  let sumEndpoint := jwtSigner sumEndpoint
  let concatEndpoint := deps.NewClient "Add" "Concat"
  let concatEndpoint := deps.TraceClient "Concat" concatEndpoint
  let concatEndpoint := limiter concatEndpoint
  let concatEndpoint := deps.Gobreaker "Concat" concatEndpoint
  { SumEndpoint := sumEndpoint, ConcatEndpoint := concatEndpoint }

/-! ## Test doubles that record calls -/

/-- One recorded call of a collaborator of the token middlewares. -/
inductive Call where
  | keyFunc (token : Token)
  | next (ctx : Context) (request : Value)
  deriving DecidableEq, Repr

/-- A Keyfunc that behaves as `keyFunc` and records each of its calls. -/
def spyKeyfunc {σ : Type} (keyFunc : Keyfunc σ) : Keyfunc (σ × List Call) :=
  fun token w =>
    match keyFunc token w.1 with
    | (r, s1) => (r, (s1, w.2 ++ [Call.keyFunc token]))

/-- An endpoint that behaves as `next` and records each of its calls. -/
def spyEndpoint {σ : Type} (next : Endpoint σ) : Endpoint (σ × List Call) :=
  fun ctx request w =>
    match next ctx request w.1 with
    | (o, s1) => (o, (s1, w.2 ++ [Call.next ctx request]))

/-- A Keyfunc that always resolves to the same key. -/
def constKeyfunc (key : Value) : Keyfunc Unit :=
  fun _ s => ((key, none), s)

/-- A base endpoint that always succeeds. -/
def okEndpoint : Endpoint Unit :=
  fun _ _ s => (Outcome.ret (Value.str "ok") none, s)

/-- The stages of the client pipeline. -/
inductive Stage where
  | tracer
  | limiter
  | breaker
  | signer
  deriving DecidableEq, Repr

/-- One entry of a call-order trace. -/
inductive Step where
  | before (stage : Stage)
  | base
  | after (stage : Stage)
  deriving DecidableEq, Repr

/-- A middleware that records when it is entered and when it is left. -/
def probe (stage : Stage) : Middleware (List Step) :=
  fun next ctx request log =>
    match next ctx request (log ++ [Step.before stage]) with
    | (o, log1) => (o, log1 ++ [Step.after stage])

/-- A base endpoint that records its call and succeeds. -/
def probeBase : Endpoint (List Step) :=
  fun _ _ log => (Outcome.ret (Value.str "reply") none, log ++ [Step.base])

/-- The client collaborators replaced by recording doubles. -/
def probeDeps : Deps (List Step) where
  NewSigner := fun _ _ _ => probe Stage.signer
  NewTokenBucketLimiter := probe Stage.limiter
  NewClient := fun _ _ => probeBase
  TraceClient := fun _ => probe Stage.tracer
  Gobreaker := fun _ => probe Stage.breaker

/-- Context with its cancellation state set to `e`. -/
def Context.withErr (ctx : Context) (e : Option CtxErr) : Context :=
  { ctx with err := e }

/-- Token processing in the parser endpoint fails at one of its steps. -/
inductive ParseFailure {σ : Type} (lib : Lib) (keyFunc : Keyfunc σ) (tokenString : String)
    (s : σ) : Prop where
  | malformed (e : Error) (hdec : lib.decode tokenString = .error e)
  | unexpectedMethod (d : Decoded) (hdec : lib.decode tokenString = .ok d)
      (hm : d.Method.isHMAC = false)
  | keyResolution (d : Decoded) (key : Value) (e : Error) (s1 : σ)
      (hdec : lib.decode tokenString = .ok d) (hm : d.Method.isHMAC = true)
      (hkey : keyFunc (d.toToken tokenString) s = ((key, some e), s1))
  | invalid (d : Decoded) (key : Value) (e : Error) (s1 : σ)
      (hdec : lib.decode tokenString = .ok d) (hm : d.Method.isHMAC = true)
      (hkey : keyFunc (d.toToken tokenString) s = ((key, none), s1))
      (hver : lib.verify (d.withSignature tokenString) key = .error e)
  | notValid (d : Decoded) (key : Value) (s1 : σ)
      (hdec : lib.decode tokenString = .ok d) (hm : d.Method.isHMAC = true)
      (hkey : keyFunc (d.toToken tokenString) s = ((key, none), s1))
      (hver : lib.verify (d.withSignature tokenString) key = .ok false)

/-! ## Theorems -/

/-- The five failure steps of `ParseFailure` and the success case of the parser
(decode, HMAC method, key resolved, verified and valid) leave no case out. -/
theorem parse_failure_or_success {σ : Type} (lib : Lib) (keyFunc : Keyfunc σ)
    (tokenString : String) (s : σ) :
    ParseFailure lib keyFunc tokenString s ∨
      ∃ (d : Decoded) (key : Value) (s1 : σ),
        lib.decode tokenString = .ok d ∧ d.Method.isHMAC = true ∧
        keyFunc (d.toToken tokenString) s = ((key, none), s1) ∧
        lib.verify (d.withSignature tokenString) key = .ok true := by
  cases hdec : lib.decode tokenString with
  | error e => exact Or.inl (ParseFailure.malformed e hdec)
  | ok d =>
    cases hm : d.Method.isHMAC with
    | false => exact Or.inl (ParseFailure.unexpectedMethod d hdec hm)
    | true =>
      rcases hkey : keyFunc (d.toToken tokenString) s with ⟨⟨key, oe⟩, s1⟩
      cases oe with
      | some e => exact Or.inl (ParseFailure.keyResolution d key e s1 hdec hm hkey)
      | none =>
        cases hver : lib.verify (d.withSignature tokenString) key with
        | error e => exact Or.inl (ParseFailure.invalid d key e s1 hdec hm hkey hver)
        | ok valid =>
          cases valid with
          | false => exact Or.inl (ParseFailure.notValid d key s1 hdec hm hkey hver)
          | true => exact Or.inr ⟨d, key, s1, rfl, hm, hkey, hver⟩

/-- C1: with an HMAC method expected, a token whose declared method is not an
HMAC method is refused with the "Unexpected signing method" error; neither the
Keyfunc nor the next stage is called (the call record is unchanged). -/
theorem parser_non_hmac_refused_before_keyfunc {σ : Type} (lib : Lib) (keyFunc : Keyfunc σ)
    (next : Endpoint σ) (name : String) (ctx : Context) (request : Value) (s : σ)
    (log : List Call) (tokenString : String) (d : Decoded)
    (htok : ctx.Value "jwtToken" = Value.str tokenString)
    (hdec : lib.decode tokenString = .ok d)
    (hm : d.Method.isHMAC = false) :
    NewJWTParser lib (spyKeyfunc keyFunc) (SigningMethod.HMAC name) (spyEndpoint next)
        ctx request (s, log) =
      (Outcome.ret Value.nil
        (some (Error.Validation
          (Error.New ("Unexpected signing method: " ++ fmtV (lookupValue "alg" d.Header)))
          ValidationErrorUnverifiable)), (s, log)) := by
  simp [NewJWTParser, jwt.Parse, parserKeyfunc, Decoded.toToken, htok, hdec, hm]

/-- Witness of C1: an RS256 token met by a parser that expects HS256. -/
theorem parser_non_hmac_refused_before_keyfunc_witness :
    NewJWTParser (refLib false) (spyKeyfunc (constKeyfunc (Value.bytes "k1")))
        (SigningMethod.HMAC "HS256") (spyEndpoint okEndpoint)
        (Context.Background.WithValue "jwtToken" (Value.str "RS256.sub=svc-a.rsa-key"))
        (Value.str "request") ((), []) =
      (Outcome.ret Value.nil
        (some (Error.Validation (Error.New "Unexpected signing method: RS256")
          ValidationErrorUnverifiable)), ((), [])) :=
  parser_non_hmac_refused_before_keyfunc (refLib false) (constKeyfunc (Value.bytes "k1"))
    okEndpoint "HS256" _ (Value.str "request") () [] "RS256.sub=svc-a.rsa-key"
    ⟨.RSA "RS256", [("alg", Value.str "RS256"), ("typ", Value.str "JWT")],
      [("sub", JSON.str "svc-a")], "rsa-key"⟩
    (by decide) (by decide) (by decide)

/-- C2: on a context without a token under "jwtToken" the parser endpoint
does not return an error: the unchecked type assertion on the nil interface
panics.  Neither the Keyfunc nor the next stage is called. -/
theorem parser_missing_token_panics {σ : Type} (lib : Lib) (keyFunc : Keyfunc σ)
    (method : SigningMethod) (next : Endpoint σ) (request : Value) (s : σ) (log : List Call) :
    NewJWTParser lib (spyKeyfunc keyFunc) method (spyEndpoint next)
        Context.Background request (s, log) =
      (Outcome.panic "interface conversion: interface \x7b\x7d is nil, not string", (s, log)) := by
  rfl

/-- C3: the expected method handed to `NewJWTParser` does not select the
accepted family: the endpoint is the same for every expected method.  With
RS256 expected, a token signed with HS256 (a different
family) that verifies under the resolved key is accepted: the Keyfunc is asked
for the key and the next stage is called with the claims. -/
theorem parser_expected_method_ignored :
    (∀ (σ : Type) (lib : Lib) (keyFunc : Keyfunc σ) (m1 m2 : SigningMethod),
      NewJWTParser lib keyFunc m1 = NewJWTParser lib keyFunc m2) ∧
    SigningMethod.sameFamily (SigningMethod.HMAC "HS256") SigningMethodRS256 = false ∧
    (refLib false).decode "HS256.sub=svc-a.hmac-k1" =
      .ok ⟨SigningMethod.HMAC "HS256", [("alg", Value.str "HS256"), ("typ", Value.str "JWT")],
        [("sub", JSON.str "svc-a")], "hmac-k1"⟩ ∧
    NewJWTParser (refLib false) (spyKeyfunc (constKeyfunc (Value.bytes "k1")))
        SigningMethodRS256 (spyEndpoint okEndpoint)
        (Context.Background.WithValue "jwtToken" (Value.str "HS256.sub=svc-a.hmac-k1"))
        (Value.str "request") ((), []) =
      (Outcome.ret (Value.str "ok") none,
        ((), [Call.keyFunc
                ⟨"HS256.sub=svc-a.hmac-k1", SigningMethod.HMAC "HS256",
                  [("alg", Value.str "HS256"), ("typ", Value.str "JWT")],
                  Claims.MapClaims [("sub", JSON.str "svc-a")], "", false⟩,
              Call.next
                ((Context.Background.WithValue "jwtToken"
                    (Value.str "HS256.sub=svc-a.hmac-k1")).WithValue "jwtClaims"
                  (Value.claims [("sub", JSON.str "svc-a")]))
                (Value.str "request")])) := by
  refine ⟨fun _ _ _ _ _ => rfl, by decide, by decide, by decide⟩

/-- C4: when the token in the context decodes, declares an HMAC method, has its
key resolved and verifies, the parser endpoint calls the Keyfunc once and then
the next stage once, with the same request and with the context extended by the
decoded claims under "jwtClaims"; every other key, and the cancellation state,
are as in the incoming context; the outcome is the outcome of the next stage. -/
theorem parser_success_calls_next_with_claims {σ : Type} (lib : Lib) (keyFunc : Keyfunc σ)
    (method : SigningMethod) (next : Endpoint σ) (ctx : Context) (request : Value) (s s1 : σ)
    (log : List Call) (tokenString : String) (d : Decoded) (key : Value)
    (htok : ctx.Value "jwtToken" = Value.str tokenString)
    (hdec : lib.decode tokenString = .ok d)
    (hm : d.Method.isHMAC = true)
    (hkey : keyFunc (d.toToken tokenString) s = ((key, none), s1))
    (hver : lib.verify (d.withSignature tokenString) key = .ok true) :
    NewJWTParser lib (spyKeyfunc keyFunc) method (spyEndpoint next) ctx request (s, log) =
      ((next (ctx.WithValue "jwtClaims" (Value.claims d.Claims)) request s1).1,
        ((next (ctx.WithValue "jwtClaims" (Value.claims d.Claims)) request s1).2,
          log ++ [Call.keyFunc (d.toToken tokenString),
                  Call.next (ctx.WithValue "jwtClaims" (Value.claims d.Claims)) request])) ∧
    (ctx.WithValue "jwtClaims" (Value.claims d.Claims)).Value "jwtClaims" =
      Value.claims d.Claims ∧
    (∀ k : String, k ≠ "jwtClaims" →
      (ctx.WithValue "jwtClaims" (Value.claims d.Claims)).Value k = ctx.Value k) ∧
    (ctx.WithValue "jwtClaims" (Value.claims d.Claims)).err = ctx.err := by
  refine ⟨?_, ?_, ?_, rfl⟩
  · simp [NewJWTParser, jwt.Parse, parserKeyfunc, spyKeyfunc, spyEndpoint, htok, hdec, hkey,
      hver, show (d.toToken tokenString).Method.isHMAC = true from hm]
    exact ⟨rfl, rfl, rfl⟩
  · simp [Context.WithValue, Context.Value, lookupValue]
  · intro k hk
    simp [Context.WithValue, Context.Value, lookupValue, Ne.symm hk]

/-- Witness of C4: an HS256 token signed with key "k1", the Keyfunc resolving "k1". -/
theorem parser_success_calls_next_with_claims_witness :
    NewJWTParser (refLib false) (spyKeyfunc (constKeyfunc (Value.bytes "k1")))
        SigningMethodHS256 (spyEndpoint okEndpoint)
        (Context.Background.WithValue "jwtToken" (Value.str "HS256.sub=svc-a.hmac-k1"))
        (Value.str "request") ((), []) =
      (Outcome.ret (Value.str "ok") none,
        ((), [] ++ [Call.keyFunc
                ((Decoded.mk (SigningMethod.HMAC "HS256")
                    [("alg", Value.str "HS256"), ("typ", Value.str "JWT")]
                    [("sub", JSON.str "svc-a")] "hmac-k1").toToken "HS256.sub=svc-a.hmac-k1"),
              Call.next
                ((Context.Background.WithValue "jwtToken"
                    (Value.str "HS256.sub=svc-a.hmac-k1")).WithValue "jwtClaims"
                  (Value.claims [("sub", JSON.str "svc-a")]))
                (Value.str "request")])) :=
  (parser_success_calls_next_with_claims (refLib false) (constKeyfunc (Value.bytes "k1"))
    SigningMethodHS256 okEndpoint
    (Context.Background.WithValue "jwtToken" (Value.str "HS256.sub=svc-a.hmac-k1"))
    (Value.str "request") () () [] "HS256.sub=svc-a.hmac-k1"
    ⟨SigningMethod.HMAC "HS256", [("alg", Value.str "HS256"), ("typ", Value.str "JWT")],
      [("sub", JSON.str "svc-a")], "hmac-k1"⟩
    (Value.bytes "k1") (by decide) (by decide) (by decide) (by decide) (by decide)).1

/-- C5: when token processing fails at any step (the string does not decode,
the declared method is not an HMAC method, the Keyfunc fails, verification
fails, or the verified token is left not valid), the parser endpoint returns a
nil response with a non-nil error, and the calls it has made are calls of the
Keyfunc only: the next stage is not called. -/
theorem parser_failure_aborts_before_next {σ : Type} (lib : Lib) (keyFunc : Keyfunc σ)
    (method : SigningMethod) (next : Endpoint σ) (ctx : Context) (request : Value) (s : σ)
    (log : List Call) (tokenString : String)
    (htok : ctx.Value "jwtToken" = Value.str tokenString)
    (hfail : ParseFailure lib keyFunc tokenString s) :
    ∃ (err : Error) (s1 : σ) (calls : List Call),
      NewJWTParser lib (spyKeyfunc keyFunc) method (spyEndpoint next) ctx request (s, log) =
        (Outcome.ret Value.nil (some err), (s1, log ++ calls)) ∧
      ∀ c ∈ calls, ∃ t : Token, c = Call.keyFunc t := by
  cases hfail with
  | malformed e hdec =>
    exact ⟨e, s, [], by simp [NewJWTParser, jwt.Parse, htok, hdec], by simp⟩
  | unexpectedMethod d hdec hm =>
    exact ⟨_, s, [], by
      simp [NewJWTParser, jwt.Parse, parserKeyfunc, Decoded.toToken, htok, hdec, hm]
      rfl, by simp⟩
  | keyResolution d key e s1 hdec hm hkey =>
    exact ⟨Error.Validation e ValidationErrorUnverifiable, s1,
      [Call.keyFunc (d.toToken tokenString)], by
        simp [NewJWTParser, jwt.Parse, parserKeyfunc, spyKeyfunc, htok, hdec, hkey,
          show (d.toToken tokenString).Method.isHMAC = true from hm], by simp⟩
  | invalid d key e s1 hdec hm hkey hver =>
    exact ⟨e, s1, [Call.keyFunc (d.toToken tokenString)], by
        simp [NewJWTParser, jwt.Parse, parserKeyfunc, spyKeyfunc, htok, hdec, hkey, hver,
          show (d.toToken tokenString).Method.isHMAC = true from hm], by simp⟩
  | notValid d key s1 hdec hm hkey hver =>
    exact ⟨Error.New "Could not parse JWT Token", s1, [Call.keyFunc (d.toToken tokenString)], by
        simp [NewJWTParser, jwt.Parse, parserKeyfunc, spyKeyfunc, htok, hdec, hkey, hver,
          show (d.toToken tokenString).Method.isHMAC = true from hm], by simp⟩

/-- Witness of C5: an HS256 token whose signature was made with another key. -/
theorem parser_failure_aborts_before_next_witness :
    ∃ (err : Error) (s1 : Unit) (calls : List Call),
      NewJWTParser (refLib false) (spyKeyfunc (constKeyfunc (Value.bytes "k2")))
          SigningMethodHS256 (spyEndpoint okEndpoint)
          (Context.Background.WithValue "jwtToken" (Value.str "HS256.sub=svc-a.hmac-k1"))
          (Value.str "request") ((), []) =
        (Outcome.ret Value.nil (some err), (s1, [] ++ calls)) ∧
      ∀ c ∈ calls, ∃ t : Token, c = Call.keyFunc t :=
  parser_failure_aborts_before_next (refLib false) (constKeyfunc (Value.bytes "k2"))
    SigningMethodHS256 okEndpoint
    (Context.Background.WithValue "jwtToken" (Value.str "HS256.sub=svc-a.hmac-k1"))
    (Value.str "request") () [] "HS256.sub=svc-a.hmac-k1" (by decide)
    (ParseFailure.invalid
      ⟨SigningMethod.HMAC "HS256", [("alg", Value.str "HS256"), ("typ", Value.str "JWT")],
        [("sub", JSON.str "svc-a")], "hmac-k1"⟩
      (Value.bytes "k2")
      (Error.Validation (Error.New "signature is invalid") ValidationErrorSignatureInvalid) ()
      (by decide) (by decide) (by decide) (by decide))

/-- C6: when signing succeeds, the signer endpoint calls the next stage once,
with the same request and with the context extended by the signed token string
under "jwtToken"; every other key, and the cancellation state, are as in the
incoming context; the outcome is the outcome of the next stage. -/
theorem signer_success_calls_next_with_token {σ : Type} (lib : Lib) (key : String)
    (method : SigningMethod) (next : Endpoint σ) (ctx : Context) (request : Value) (s : σ)
    (log : List Call) (tokenString : String)
    (hsign : lib.SignedString (jwt.New method) (Value.str key) = .ok tokenString) :
    NewJWTSigner lib key method (spyEndpoint next) ctx request (s, log) =
      ((next (ctx.WithValue "jwtToken" (Value.str tokenString)) request s).1,
        ((next (ctx.WithValue "jwtToken" (Value.str tokenString)) request s).2,
          log ++ [Call.next (ctx.WithValue "jwtToken" (Value.str tokenString)) request])) ∧
    (ctx.WithValue "jwtToken" (Value.str tokenString)).Value "jwtToken" =
      Value.str tokenString ∧
    (∀ k : String, k ≠ "jwtToken" →
      (ctx.WithValue "jwtToken" (Value.str tokenString)).Value k = ctx.Value k) ∧
    (ctx.WithValue "jwtToken" (Value.str tokenString)).err = ctx.err := by
  refine ⟨?_, ?_, ?_, rfl⟩
  · simp [NewJWTSigner, spyEndpoint, hsign]
  · simp [Context.WithValue, Context.Value, lookupValue]
  · intro k hk
    simp [Context.WithValue, Context.Value, lookupValue, Ne.symm hk]

/-- Witness of C6: a signer built with the application-registered method XSTR,
which signs with a string key, called on a context that already holds a
binding; the library is the one whose built-in methods refuse string keys. -/
theorem signer_success_calls_next_with_token_witness :
    (refLib false).SignedString (jwt.New (SigningMethod.Custom "XSTR")) (Value.str "k1") =
      .ok "XSTR..xstr-k1" ∧
    (NewJWTSigner (refLib false) "k1" (SigningMethod.Custom "XSTR") (spyEndpoint okEndpoint)
        (Context.Background.WithValue "requestID" (Value.str "r-42"))
        (Value.str "request") ((), []) =
      (Outcome.ret (Value.str "ok") none,
        ((), [] ++ [Call.next
                (((Context.Background.WithValue "requestID" (Value.str "r-42"))).WithValue
                  "jwtToken" (Value.str "XSTR..xstr-k1"))
                (Value.str "request")])) ∧
    ((Context.Background.WithValue "requestID" (Value.str "r-42")).WithValue
        "jwtToken" (Value.str "XSTR..xstr-k1")).Value "jwtToken" = Value.str "XSTR..xstr-k1" ∧
    (∀ k : String, k ≠ "jwtToken" →
      ((Context.Background.WithValue "requestID" (Value.str "r-42")).WithValue
        "jwtToken" (Value.str "XSTR..xstr-k1")).Value k =
        (Context.Background.WithValue "requestID" (Value.str "r-42")).Value k) ∧
    ((Context.Background.WithValue "requestID" (Value.str "r-42")).WithValue
        "jwtToken" (Value.str "XSTR..xstr-k1")).err =
      (Context.Background.WithValue "requestID" (Value.str "r-42")).err) :=
  ⟨by decide,
    signer_success_calls_next_with_token (refLib false) "k1" (SigningMethod.Custom "XSTR")
      okEndpoint (Context.Background.WithValue "requestID" (Value.str "r-42"))
      (Value.str "request") () [] "XSTR..xstr-k1" (by decide)⟩

/-- C7: when signing fails, the signer endpoint returns a nil response with
the signing error and does not call the next stage. -/
theorem signer_failure_returns_error {σ : Type} (lib : Lib) (key : String)
    (method : SigningMethod) (next : Endpoint σ) (ctx : Context) (request : Value) (s : σ)
    (log : List Call) (err : Error)
    (hsign : lib.SignedString (jwt.New method) (Value.str key) = .error err) :
    NewJWTSigner lib key method (spyEndpoint next) ctx request (s, log) =
      (Outcome.ret Value.nil (some err), (s, log)) := by
  simp [NewJWTSigner, hsign]

/-- Witness of C7: an RS256 signer given a string where a key object is needed. -/
theorem signer_failure_returns_error_witness :
    NewJWTSigner (refLib false) "k1" SigningMethodRS256 (spyEndpoint okEndpoint)
        Context.Background (Value.str "request") ((), []) =
      (Outcome.ret Value.nil (some (Error.New "key is invalid")), ((), [])) :=
  signer_failure_returns_error (refLib false) "k1" SigningMethodRS256 okEndpoint
    Context.Background (Value.str "request") () [] (Error.New "key is invalid") (by decide)

/-- C8: the signer takes no claims, so the round trip cannot carry the claims
sub=svc-a.  Signer (HS256, key "k1") around parser (Keyfunc resolving "k1",
HS256) around a base endpoint: with HMAC keys restricted to byte slices the
string key is refused and the base endpoint is never reached; were the string
key accepted, the base endpoint is reached with an empty claims entry. -/
theorem sign_parse_round_trip_loses_claims :
    NewJWTSigner (refLib false) "k1" SigningMethodHS256
        (NewJWTParser (refLib false) (spyKeyfunc (constKeyfunc (Value.bytes "k1")))
          SigningMethodHS256 (spyEndpoint okEndpoint))
        Context.Background (Value.str "request") ((), []) =
      (Outcome.ret Value.nil (some (Error.New "key is invalid")), ((), [])) ∧
    NewJWTSigner (refLib true) "k1" SigningMethodHS256
        (NewJWTParser (refLib true) (spyKeyfunc (constKeyfunc (Value.str "k1")))
          SigningMethodHS256 (spyEndpoint okEndpoint))
        Context.Background (Value.str "request") ((), []) =
      (Outcome.ret (Value.str "ok") none,
        ((), [Call.keyFunc
                ⟨"HS256..hmac-k1", SigningMethod.HMAC "HS256",
                  [("alg", Value.str "HS256"), ("typ", Value.str "JWT")],
                  Claims.MapClaims [], "", false⟩,
              Call.next
                ((Context.Background.WithValue "jwtToken"
                    (Value.str "HS256..hmac-k1")).WithValue "jwtClaims" (Value.claims []))
                (Value.str "request")])) ∧
    ((Context.Background.WithValue "jwtToken"
        (Value.str "HS256..hmac-k1")).WithValue "jwtClaims" (Value.claims [])).Value "jwtClaims" ≠
      Value.claims [("sub", JSON.str "svc-a")] := by
  refine ⟨by decide, by decide, by decide⟩

/-- C9 as stated fails: with recording doubles for the four middlewares, one
call of the Sum endpoint does not enter the stages in the order tracer, limiter,
breaker, signer, base. -/
theorem client_sum_order_not_tracer_first :
    ((grpc.New probeDeps).SumEndpoint Context.Background Value.nil []).2 ≠
      [Step.before Stage.tracer, Step.before Stage.limiter, Step.before Stage.breaker,
        Step.before Stage.signer, Step.base, Step.after Stage.signer,
        Step.after Stage.breaker, Step.after Stage.limiter, Step.after Stage.tracer] := by
  decide

/-- C9 amended: the Sum endpoint built by `New` is signer(breaker(limiter(
tracer(base)))): from innermost to outermost base, tracer, limiter, breaker,
signer.  One call enters the stages in the order signer, breaker, limiter,
tracer, base and leaves them in the reverse order. -/
theorem client_sum_order_signer_first :
    (∀ (σ : Type) (deps : Deps σ),
      (grpc.New deps).SumEndpoint =
        deps.NewSigner "SampleSigningKey" SigningMethodHS256 []
          (deps.Gobreaker "Sum"
            (deps.NewTokenBucketLimiter
              (deps.TraceClient "Sum" (deps.NewClient "Add" "Sum"))))) ∧
    ∀ (ctx : Context) (request : Value) (log : List Step),
      (grpc.New probeDeps).SumEndpoint ctx request log =
        (Outcome.ret (Value.str "reply") none,
          log ++ [Step.before Stage.signer, Step.before Stage.breaker,
            Step.before Stage.limiter, Step.before Stage.tracer, Step.base,
            Step.after Stage.tracer, Step.after Stage.limiter, Step.after Stage.breaker,
            Step.after Stage.signer]) := by
  refine ⟨fun _ _ => rfl, ?_⟩
  intro ctx request log
  simp [grpc.New, probeDeps, probe, probeBase]

/-- C10 as stated fails: on a context that is already cancelled and holds a
token that verifies, the parser endpoint asks the Keyfunc for the key, calls the
next stage and returns its response; no cancellation error is produced. -/
theorem parser_cancelled_context_still_proceeds :
    ((Context.Background.WithValue "jwtToken"
        (Value.str "HS256.sub=svc-a.hmac-k1")).withErr (some CtxErr.Canceled)).err =
      some CtxErr.Canceled ∧
    NewJWTParser (refLib false) (spyKeyfunc (constKeyfunc (Value.bytes "k1")))
        SigningMethodHS256 (spyEndpoint okEndpoint)
        ((Context.Background.WithValue "jwtToken"
          (Value.str "HS256.sub=svc-a.hmac-k1")).withErr (some CtxErr.Canceled))
        (Value.str "request") ((), []) =
      (Outcome.ret (Value.str "ok") none,
        ((), [Call.keyFunc
                ⟨"HS256.sub=svc-a.hmac-k1", SigningMethod.HMAC "HS256",
                  [("alg", Value.str "HS256"), ("typ", Value.str "JWT")],
                  Claims.MapClaims [("sub", JSON.str "svc-a")], "", false⟩,
              Call.next
                (((Context.Background.WithValue "jwtToken"
                    (Value.str "HS256.sub=svc-a.hmac-k1")).withErr
                      (some CtxErr.Canceled)).WithValue "jwtClaims"
                  (Value.claims [("sub", JSON.str "svc-a")]))
                (Value.str "request")])) := by
  refine ⟨by decide, by decide⟩

/-- C10 amended: the parser endpoint never reads the cancellation state of the
context.  A call on a context in state `e` (live, cancelled or past its deadline)
is processed exactly as the call on the live context with the same bindings, the
state `e` being handed on unchanged to the next stage. -/
theorem parser_ignores_cancellation {σ : Type} (lib : Lib) (keyFunc : Keyfunc σ)
    (method : SigningMethod) (next : Endpoint σ) (ctx : Context) (request : Value) (s : σ)
    (e : Option CtxErr) :
    NewJWTParser lib keyFunc method next (ctx.withErr e) request s =
      NewJWTParser lib keyFunc method (fun c r => next (c.withErr e) r)
        (ctx.withErr none) request s := by
  unfold NewJWTParser
  have hv : (ctx.withErr e).Value "jwtToken" = (ctx.withErr none).Value "jwtToken" := rfl
  rw [hv]
  cases (ctx.withErr none).Value "jwtToken" <;> try rfl
  rename_i ts
  simp only
  rcases jwt.Parse lib ts (parserKeyfunc keyFunc) s with ⟨r, s1⟩
  cases r with
  | error err => rfl
  | ok token =>
    simp only
    cases token.Valid <;> simp
    cases token.Claims <;> rfl

end Kit
